import Mathlib

namespace FacultyApi

/-- ASCII lower-casing of a character, as Python's `str.lower` acts on ASCII. -/
def pyLowerChar (c : Char) : Char :=
  if 'A' ≤ c ∧ c ≤ 'Z' then Char.ofNat (c.toNat + 32) else c

/-- Lower-casing used by `name.lower()` in `analyze_csv` (header names are ASCII). -/
def pyLower (s : String) : String :=
  String.mk (s.toList.map pyLowerChar)

/-- Whitespace characters stripped by Python's `str.strip()` (ASCII subset). -/
def isPySpace (c : Char) : Bool :=
  c == ' ' || c == '\t' || c == '\n' || c == '\r' || c == '\x0b' || c == '\x0c'

/-- Python's `str.strip()`: removes leading and trailing whitespace. -/
def pyStrip (s : String) : String :=
  String.mk (((s.toList.dropWhile isPySpace).reverse.dropWhile isPySpace).reverse)

/-- Python's `str.endswith`, used for the `.csv` filename check. -/
def strEndsWith (s suffix : String) : Bool :=
  List.isSuffixOf suffix.toList s.toList

/-- Replaces the first occurrence of `pat` in `text` by `rep`. -/
def replaceFirst (pat rep : List Char) : List Char → List Char
  | [] => []
  | c :: cs =>
    if pat.isPrefixOf (c :: cs) then rep ++ (c :: cs).drop pat.length
    else c :: replaceFirst pat rep cs

/-- Python's `str.format` with a single positional placeholder, as used on
`SUMMARIZE_PROMPT` (which contains exactly one placeholder and no other braces). -/
def pyFormat (template arg : String) : String :=
  String.mk (replaceFirst "\x7b\x7d".toList arg.toList template.toList)

/-- Continuation byte test for UTF-8 decoding. -/
def isUtf8Cont (b : Nat) : Bool :=
  0x80 ≤ b && b ≤ 0xBF

/-- Strict UTF-8 decoding of the uploaded bytes, as performed by
`content.decode("utf-8")` in `analyze_csv`: rejects overlong encodings,
surrogates and code points above U+10FFFF; `none` models `UnicodeDecodeError`. -/
def utf8Decode : List Nat → Option (List Char)
  | [] => some []
  | b :: bs =>
    if b < 0x80 then
      (utf8Decode bs).map (fun cs => Char.ofNat b :: cs)
    else if 0xC2 ≤ b && b ≤ 0xDF then
      match bs with
      | b2 :: bs2 =>
        if isUtf8Cont b2 then
          (utf8Decode bs2).map (fun cs => Char.ofNat ((b - 0xC0) * 64 + (b2 - 0x80)) :: cs)
        else none
      | [] => none
    else if 0xE0 ≤ b && b ≤ 0xEF then
      match bs with
      | b2 :: b3 :: bs3 =>
        if (if b = 0xE0 then 0xA0 ≤ b2 && b2 ≤ 0xBF
            else if b = 0xED then 0x80 ≤ b2 && b2 ≤ 0x9F
            else isUtf8Cont b2) && isUtf8Cont b3 then
          (utf8Decode bs3).map
            (fun cs => Char.ofNat ((b - 0xE0) * 4096 + (b2 - 0x80) * 64 + (b3 - 0x80)) :: cs)
        else none
      | _ => none
    else if 0xF0 ≤ b && b ≤ 0xF4 then
      match bs with
      | b2 :: b3 :: b4 :: bs4 =>
        if (if b = 0xF0 then 0x90 ≤ b2 && b2 ≤ 0xBF
            else if b = 0xF4 then 0x80 ≤ b2 && b2 ≤ 0x8F
            else isUtf8Cont b2) && isUtf8Cont b3 && isUtf8Cont b4 then
          (utf8Decode bs4).map
            (fun cs => Char.ofNat ((b - 0xF0) * 262144 + (b2 - 0x80) * 4096 +
              (b3 - 0x80) * 64 + (b4 - 0x80)) :: cs)
        else none
      | _ => none
    else none

/-- UTF-8 bytes of an ASCII string; used to build concrete uploaded files. -/
def asciiBytes (s : String) : List Nat :=
  s.toList.map Char.toNat

/-- Parser states of CPython's `_csv` reader automaton (default dialect:
delimiter `,`, quote `"`, doublequote on, non-strict). -/
inductive CsvSt where
  | startRecord
  | startField
  | inField
  | inQuoted
  | quoteInQuoted
  | eatCrnl

/-- Message of the `csv.Error` raised for a character following a bare `\r`
inside a record. -/
def csvNewlineErr : String :=
  "new-line character seen in unquoted field - do you need to open the file in universal-newline mode?"

/-- Character-level automaton of `csv.reader` over the decoded text (default
dialect), accumulating the current field (reversed), the fields of the current
record (reversed) and emitting records in file order.  A blank line yields the
empty record `[]`.  The error case is the `csv.Error` for a stray `\r`. -/
def parseCSVAux : CsvSt → List Char → List String → List Char → Except String (List (List String))
  | st, fld, flds, [] =>
    match st with
    | .startRecord => .ok []
    | .eatCrnl => .ok []
    | _ => .ok [(String.mk fld.reverse :: flds).reverse]
  | st, fld, flds, c :: cs =>
    match st with
    | .startRecord =>
      if c = '\n' then (parseCSVAux .startRecord [] [] cs).map (fun rs => [] :: rs)
      else if c = '\r' then (parseCSVAux .eatCrnl [] [] cs).map (fun rs => [] :: rs)
      else if c = '"' then parseCSVAux .inQuoted [] [] cs
      else if c = ',' then parseCSVAux .startField [] [""] cs
      else parseCSVAux .inField [c] [] cs
    | .startField =>
      if c = '"' then parseCSVAux .inQuoted fld flds cs
      else if c = ',' then parseCSVAux .startField [] (String.mk fld.reverse :: flds) cs
      else if c = '\n' then
        (parseCSVAux .startRecord [] [] cs).map
          (fun rs => (String.mk fld.reverse :: flds).reverse :: rs)
      else if c = '\r' then
        (parseCSVAux .eatCrnl [] [] cs).map
          (fun rs => (String.mk fld.reverse :: flds).reverse :: rs)
      else parseCSVAux .inField (c :: fld) flds cs
    | .inField =>
      if c = ',' then parseCSVAux .startField [] (String.mk fld.reverse :: flds) cs
      else if c = '\n' then
        (parseCSVAux .startRecord [] [] cs).map
          (fun rs => (String.mk fld.reverse :: flds).reverse :: rs)
      else if c = '\r' then
        (parseCSVAux .eatCrnl [] [] cs).map
          (fun rs => (String.mk fld.reverse :: flds).reverse :: rs)
      else parseCSVAux .inField (c :: fld) flds cs
    | .inQuoted =>
      if c = '"' then parseCSVAux .quoteInQuoted fld flds cs
      else parseCSVAux .inQuoted (c :: fld) flds cs
    | .quoteInQuoted =>
      if c = '"' then parseCSVAux .inQuoted ('"' :: fld) flds cs
      else if c = ',' then parseCSVAux .startField [] (String.mk fld.reverse :: flds) cs
      else if c = '\n' then
        (parseCSVAux .startRecord [] [] cs).map
          (fun rs => (String.mk fld.reverse :: flds).reverse :: rs)
      else if c = '\r' then
        (parseCSVAux .eatCrnl [] [] cs).map
          (fun rs => (String.mk fld.reverse :: flds).reverse :: rs)
      else parseCSVAux .inField (c :: fld) flds cs
    | .eatCrnl =>
      if c = '\n' then parseCSVAux .startRecord [] [] cs
      else if c = '\r' then parseCSVAux .eatCrnl [] [] cs
      else .error csvNewlineErr

/-- The records produced by `csv.reader(StringIO(text_content))` in file order. -/
def parseCSV (text : String) : Except String (List (List String)) :=
  parseCSVAux .startRecord [] [] text.toList

instance {ε α : Type} [DecidableEq ε] [DecidableEq α] : DecidableEq (Except ε α) := fun a b =>
  match a, b with
  | .ok x, .ok y => if h : x = y then .isTrue (by rw [h]) else .isFalse (by simp [h])
  | .error x, .error y => if h : x = y then .isTrue (by rw [h]) else .isFalse (by simp [h])
  | .ok _, .error _ => .isFalse (by simp)
  | .error _, .ok _ => .isFalse (by simp)

/-- Index of the last occurrence of `k` in `l`, or `none`.  In a Python dict
built by assignments in list order, the last occurrence of a key wins. -/
def lastIdx? : List String → String → Option Nat
  | [], _ => none
  | a :: as, k =>
    match lastIdx? as k with
    | some i => some (i + 1)
    | none => if a = k then some 0 else none

/-- Value of `row.get(key, "")` on a `csv.DictReader` row dict built from
`fieldnames` and the raw cells `row`: `dict(zip(fieldnames, row))` with missing
trailing cells set to the default `restval=None`.  `some s` models a string
value, `none` models Python's `None` (the `restval` of a short row); an absent
key yields the `.get` default `""`. -/
def dictGet (fieldnames row : List String) (key : String) : Option String :=
  match lastIdx? fieldnames key with
  | none => some ""
  | some i => row.get? i

/-- Candidate comment-column names in `analyze_csv`. -/
def candidateNames : List String :=
  ["comment", "content", "text", "body"]

/-- The generator predicate `name.lower() in ["comment", "content", "text", "body"]`. -/
def isCandidate (name : String) : Bool :=
  candidateNames.contains (pyLower name)

/-- Comment-column selection of `analyze_csv`:
`next((name for name in fieldnames if name.lower() in [...]), None)`, falling
back to `fieldnames[0]` when no header matches.  (The Python fallback guard is
`if not comment_field:`, equivalent to a `None` test here because no matching
header can be the empty string.)  Only called with non-empty `fieldnames`;
the `headD` default is unreachable there. -/
def commentFieldOf (fieldnames : List String) : String :=
  match fieldnames.find? isCandidate with
  | some name => name
  | none => fieldnames.headD ""

/-- One classified row of the CSV upload response. -/
structure RowResult (S H D : Type) where
  comment : String
  sentiment : S
  hate : H
  danger : D
deriving DecidableEq

/-- Outcome of `POST /upload/`: the success payload or an `HTTPException`. -/
inductive CsvResponse (S H D : Type) where
  | ok (filename : String) (results : List (RowResult S H D)) (status : String)
  | error (status_code : Nat) (detail : String)
deriving DecidableEq

/-- Message of Python's `AttributeError` from `None.strip()`. -/
def noneStripErr : String :=
  "\x27NoneType\x27 object has no attribute \x27strip\x27"

/-- Message of Python's `IndexError` from `[0]` on an empty list. -/
def indexErr : String :=
  "list index out of range"

/-- The `for row in reader:` loop of `analyze_csv`.  `DictReader` skips records
that are empty lists; for the rest, `row.get(comment_field, "").strip()` is
evaluated (raising `AttributeError` when the cell is the `None` restval of a
short row), rows whose stripped comment is empty are skipped, and the three
analyzers are applied, `danger_analyzer.predict(...)[0]` raising `IndexError`
on an empty prediction list.  Any raised exception aborts the whole loop. -/
def processRows {S H D : Type} (sent : String → S) (hate : String → H)
    (danger : String → List D) (fieldnames : List String) (field : String) :
    List (List String) → Except String (List (RowResult S H D))
  | [] => .ok []
  | row :: rest =>
    if row = [] then processRows sent hate danger fieldnames field rest
    else
      match dictGet fieldnames row field with
      | none => .error noneStripErr
      | some s =>
        let t := pyStrip s
        if t = "" then processRows sent hate danger fieldnames field rest
        else
          match danger t with
          | [] => .error indexErr
          | d :: _ =>
            (processRows sent hate danger fieldnames field rest).map
              (fun l => ⟨t, sent t, hate t, d⟩ :: l)

/-- Message of `str(HTTPException(400, "Empty CSV file"))`: starlette renders
an `HTTPException` as `"{status_code}: {detail}"`. -/
def emptyCsvErr : String :=
  "400: Empty CSV file"

/-- Body of the `try:` block of `analyze_csv` after decoding: reads the header
(`reader.fieldnames`), raises `HTTPException(400, "Empty CSV file")` when it is
falsy (no first record, or an empty first record), selects the comment column
and runs the row loop.  Every exception value carries its `str(e)` message,
which the caller wraps. -/
def processCsv {S H D : Type} (sent : String → S) (hate : String → H)
    (danger : String → List D) (text : String) :
    Except String (List (RowResult S H D)) :=
  match parseCSV text with
  | .error e => .error e
  | .ok [] => .error emptyCsvErr
  | .ok (fieldnames :: rows) =>
    if fieldnames = [] then .error emptyCsvErr
    else processRows sent hate danger fieldnames (commentFieldOf fieldnames) rows

/-- The `POST /upload/` handler `analyze_csv` of `src/api/main.py`, with the
three pretrained analyzers as parameters.  The filename extension is checked
before the file content is read; a `UnicodeDecodeError` yields the encoding
message; every other exception in the `try:` block (including the inner
`HTTPException`) is wrapped as `"Error parsing CSV: " + str(e)`. -/
def analyze_csv {S H D : Type} (sent : String → S) (hate : String → H)
    (danger : String → List D) (filename : String) (content : List Nat) :
    CsvResponse S H D :=
  if !(strEndsWith filename ".csv") then
    .error 400 "Invalid file type. Please upload a CSV file."
  else
    match utf8Decode content with
    | none => .error 400 "Invalid file encoding. Please use UTF-8."
    | some chars =>
      match processCsv sent hate danger (String.mk chars) with
      | .error msg => .error 400 ("Error parsing CSV: " ++ msg)
      | .ok results => .ok filename results "CSV analyzed successfully"

/-- Request model `Comment` of `src/api/models/comment.py`. -/
structure Comment where
  content : String
deriving DecidableEq

/-- FastAPI/pydantic validation of the `POST /comments/` body: a missing
`content` string field is rejected with a 422 validation error before the
handler runs. -/
def parseCommentBody : Option String → Option Comment
  | none => none
  | some s => some ⟨s⟩

/-- Outcome of `POST /comments/`: the success payload, the framework's
validation error, or an unhandled server error (the only in-handler raise is
`danger_analyzer.predict(...)[0]` on an empty prediction list). -/
inductive CommentResponse (S H D : Type) where
  | ok (comment : String) (sentiment : S) (hate : H) (danger : D) (status : String)
  | validationError
  | serverError
deriving DecidableEq

/-- The `POST /comments/` handler `analyze_comment` of `src/api/main.py`,
composed with the pydantic validation of its body. -/
def analyze_comment {S H D : Type} (sent : String → S) (hate : String → H)
    (danger : String → List D) (body : Option String) : CommentResponse S H D :=
  match parseCommentBody body with
  | none => .validationError
  | some c =>
    match danger c.content with
    | [] => .serverError
    | d :: _ => .ok c.content (sent c.content) (hate c.content) d "Comment created successfully"

/-- The module-level constant `SUMMARIZE_PROMPT` of `src/api/main.py`,
transcribed verbatim (its single `str.format` placeholder written as an
escaped brace pair). -/
def SUMMARIZE_PROMPT : String :=
  "Actúa como un analista institucional en evaluación docente universitaria, con experiencia en análisis de retroalimentación estudiantil y detección de riesgos académicos y conductuales.

Objetivo del resumen (OBLIGATORIO)
Generar un resumen ejecutivo narrativo, corto y claro, en lenguaje institucional, que describa: la percepción general del docente, sus principales áreas de mejora, y la existencia de comentarios de alerta que requieren atención inmediata, si los hay.

Este resumen debe poder leerse como una sola conclusión gerencial.

🚨 Regla crítica de seguridad (NO NEGOCIABLE)
Si se detecta al menos un comentario relacionado con: acoso sexual, conducta sexual inapropiada, intimidación, violencia, abuso de poder,

DEBES: mencionarlo explícitamente en el resumen, indicar que requiere atención institucional inmediata, sin citar ni describir el contenido sensible.

✍️ Formato de salida esperado

Redacta un solo párrafo siguiendo estrictamente esta estructura lógica, SOLO DEVUELVE UN PARRAFO :

\"El docente presenta comentarios mayormente [positivos / mixtos / negativos] por parte de los estudiantes, destacándose principalmente en [fortalezas generales]. No obstante, se identifican algunas áreas de mejora relacionadas con [áreas principales de mejora]. Adicionalmente, se detectaron comentarios de alerta relacionados con [tipo de alerta], los cuales deben ser tratados de manera inmediata.\"

📌 Reglas de redacción

- Usa lenguaje institucional, objetivo y profesional.
- No incluyas citas textuales.
- No hagas juicios personales ni sancionatorios.
- No menciones cantidades exactas de comentarios sensibles.
- Si NO existen alertas, el resumen debe cerrar con: \"No se identificaron comentarios de alerta que requieran atención inmediata.\"

Lista de comentarios separados por coma:

\x7b\x7d"

/-- The prompt built by `summarize_comments`:
`SUMMARIZE_PROMPT.format(", ".join(comment_list.comments))`. -/
def buildSummarizePrompt (comments : List String) : String :=
  pyFormat SUMMARIZE_PROMPT (String.intercalate ", " comments)

/-- Result of the `ollama.chat` call as observed by the handler: the text
`response["message"]["content"]` on success, an `ollama.ResponseError` with its
`str(e)`, or any other exception (including a malformed response object) with
its `str(e)`. -/
inductive ChatOutcome where
  | success (content : String)
  | responseError (message : String)
  | otherError (message : String)
deriving DecidableEq

/-- Outcome of `POST /summarize/`: success payload or an `HTTPException`. -/
inductive SummarizeResponse where
  | ok (summary : String) (total_comments : Nat) (status : String)
  | error (status_code : Nat) (detail : String)
deriving DecidableEq

/-- The `POST /summarize/` handler `summarize_comments` of `src/api/main.py`,
with the LLM call `ollama.chat` abstracted as a function from the user-message
prompt to its outcome. -/
def summarize_comments (chat : String → ChatOutcome) (comments : List String) :
    SummarizeResponse :=
  if comments = [] then .error 400 "No comments provided"
  else
    match chat (buildSummarizePrompt comments) with
    | .success content => .ok content comments.length "Summary generated successfully"
    | .responseError m =>
      .error 503 ("Ollama service error: " ++ m ++
        ". Make sure Ollama is running and gemma3 model is available.")
    | .otherError m => .error 500 ("Error generating summary: " ++ m)

/-- Rate-limit string of the `@limiter.limit(...)` decorator on `root`. -/
def root_rate : String := "60/minute"

/-- Rate-limit string of the decorator on `analyze_comment`. -/
def comments_rate : String := "30/minute"

/-- Rate-limit string of the decorator on `analyze_csv`. -/
def upload_rate : String := "10/minute"

/-- Rate-limit string of the decorator on `summarize_comments`. -/
def summarize_rate : String := "5/minute"

/-- Digits of a decimal literal, as parsed by the rate-string notation. -/
def digitsToNatAux : List Char → Nat → Option Nat
  | [], acc => some acc
  | c :: cs, acc => if c.isDigit then digitsToNatAux cs (acc * 10 + (c.toNat - 48)) else none

/-- Parses `"N/minute"` into the per-minute request count `N`. -/
def parseRateLimit (s : String) : Option Nat :=
  match (s.toList.span (fun c => !(c == '/'))) with
  | (numPart, '/' :: unitPart) =>
    if String.mk unitPart = "minute" ∧ numPart ≠ [] then digitsToNatAux numPart 0 else none
  | _ => none

/-- The four rate-limited routes of the application. -/
inductive ApiRoute where
  | root
  | comments
  | upload
  | summarize
deriving DecidableEq

/-- The decorator string attached to each route in `src/api/main.py`. -/
def routeRate : ApiRoute → String
  | .root => root_rate
  | .comments => comments_rate
  | .upload => upload_rate
  | .summarize => summarize_rate

/-- The per-minute request limit each decorator configures. -/
def routeLimit (r : ApiRoute) : Nat :=
  (parseRateLimit (routeRate r)).getD 0

/-- Modelled from the spec: the slowapi/limits rate limiter (the library is not
part of this repository) keys requests by caller IP via `get_remote_address`
and counts requests per fixed one-minute window. -/
def windowIndex (t : Nat) : Nat := t / 60

/-- Modelled from the spec: number of earlier requests of the same caller to
the same route that fall in the current minute window. -/
def windowCount (times : List Nat) (t : Nat) : Nat :=
  (times.filter (fun u => windowIndex u == windowIndex t)).length

/-- Modelled from the spec: a request is admitted exactly when the window
count is still below the route limit; there is no backoff or adaptive state. -/
def allowRequest (limit : Nat) (times : List Nat) (t : Nat) : Bool :=
  windowCount times t < limit

/-- Value of the selected comment cell of a row (used where the cell is
present as a string). -/
def csvRowValue (fieldnames : List String) (field : String) (row : List String) : String :=
  (dictGet fieldnames row field).getD ""

/-- A blank data row in the sense of the spec: an empty record (blank line) or
a row whose selected comment cell strips to the empty string. -/
def csvRowBlank (fieldnames : List String) (field : String) (row : List String) : Bool :=
  row.isEmpty || pyStrip (csvRowValue fieldnames field row) == ""

/-- Stated from the spec sentence for refinement: one classification entry per
non-blank data row, in file order, each holding the stripped comment text and
the three classifications of that text (`dhead t` being the first element of
the danger analyzer output on `t`). -/
def expectedEntries {S H D : Type} (sent : String → S) (hate : String → H)
    (dhead : String → D) (fieldnames : List String) (field : String)
    (rows : List (List String)) : List (RowResult S H D) :=
  (rows.filter (fun r => !(csvRowBlank fieldnames field r))).map
    (fun r =>
      let t := pyStrip (csvRowValue fieldnames field r)
      ⟨t, sent t, hate t, dhead t⟩)

set_option maxRecDepth 40000 in
/-- Sanity check of the transcription: length and code-point sum of the
original Python literal. -/
theorem summarize_prompt_checksum :
    SUMMARIZE_PROMPT.length = 1802 ∧ (SUMMARIZE_PROMPT.toList.map Char.toNat).sum = 501210 := by
  decide

/-- C1: a `POST /comments/` body with a string `content` yields the comment,
the two analyzer outputs, the first element of the danger analyzer output and
the fixed status; a missing `content` yields the framework validation error,
and there is no other error path in the handler. -/
theorem analyze_comment_contract {S H D : Type} (sent : String → S) (hate : String → H)
    (danger : String → List D) (content : String) (d : D) (ds : List D)
    (hd : danger content = d :: ds) :
    analyze_comment sent hate danger (some content) =
      .ok content (sent content) (hate content) d "Comment created successfully" ∧
    analyze_comment sent hate danger none = (.validationError : CommentResponse S H D) := by
  constructor
  · simp [analyze_comment, parseCommentBody, hd]
  · rfl

theorem analyze_comment_contract_witness :
    analyze_comment (fun s => s) (fun s => s) (fun s => [s]) (some "buen docente") =
      .ok "buen docente" "buen docente" "buen docente" "buen docente"
        "Comment created successfully" ∧
    analyze_comment (fun s => s) (fun s => s) (fun s => [s]) (none : Option String) =
      (.validationError : CommentResponse String String String) :=
  analyze_comment_contract (fun s => s) (fun s => s) (fun s => [s]) "buen docente"
    "buen docente" [] rfl

/-- C4: a `POST /upload/` with a filename not ending in `.csv` is rejected
with a 400 whatever the content is (the filename check precedes the read), and
a `.csv` upload whose bytes are not valid UTF-8 is rejected with a 400; in
both cases no row is classified (the response does not depend on the
analyzers, which are universally quantified here). -/
theorem upload_rejects_bad_file {S H D : Type} (sent : String → S) (hate : String → H)
    (danger : String → List D) (filename : String) (content : List Nat) :
    (strEndsWith filename ".csv" = false →
      analyze_csv sent hate danger filename content =
        .error 400 "Invalid file type. Please upload a CSV file.") ∧
    (strEndsWith filename ".csv" = true → utf8Decode content = none →
      analyze_csv sent hate danger filename content =
        .error 400 "Invalid file encoding. Please use UTF-8.") := by
  constructor
  · intro h
    simp [analyze_csv, h]
  · intro h1 h2
    simp [analyze_csv, h1, h2]

theorem upload_rejects_bad_file_witness :
    analyze_csv (fun s => s) (fun s => s) (fun s => [s]) "notes.txt" (asciiBytes "a,b") =
      .error 400 "Invalid file type. Please upload a CSV file." ∧
    analyze_csv (fun s => s) (fun s => s) (fun s => [s]) "notes.csv" [0xff] =
      .error 400 "Invalid file encoding. Please use UTF-8." :=
  ⟨(upload_rejects_bad_file (fun s => s) (fun s => s) (fun s => [s]) "notes.txt"
      (asciiBytes "a,b")).1 (by decide),
   (upload_rejects_bad_file (fun s => s) (fun s => s) (fun s => [s]) "notes.csv"
      [0xff]).2 (by decide) (by decide)⟩

/-- C5: for a non-empty comment list the handler consults the LLM only at the
prompt built by substituting the `", "`-join of the comments into
`SUMMARIZE_PROMPT` (first conjunct: the response depends only on the chat
function value at that exact prompt), and on success returns the raw LLM text
as `summary` together with `total_comments = comments.length`. -/
theorem summarize_prompt_and_response (comments : List String) (hne : comments ≠ []) :
    (∀ chatA chatB : String → ChatOutcome,
      chatA (buildSummarizePrompt comments) = chatB (buildSummarizePrompt comments) →
      summarize_comments chatA comments = summarize_comments chatB comments) ∧
    (∀ (chat : String → ChatOutcome) (s : String),
      chat (buildSummarizePrompt comments) = .success s →
      summarize_comments chat comments =
        .ok s comments.length "Summary generated successfully") := by
  constructor
  · intro chatA chatB h
    simp [summarize_comments, hne, h]
  · intro chat s h
    simp [summarize_comments, hne, h]

theorem summarize_prompt_and_response_witness :
    summarize_comments (fun _ => .success "Resumen") ["a", "b"] =
      .ok "Resumen" 2 "Summary generated successfully" :=
  (summarize_prompt_and_response ["a", "b"] (by decide)).2
    (fun _ => .success "Resumen") "Resumen" rfl

/-- C6: an empty `comments` list is rejected with 400 "No comments provided",
and no call to the LLM is made: the response is the same constant for every
chat function. -/
theorem summarize_rejects_empty (chat : String → ChatOutcome) :
    summarize_comments chat [] = .error 400 "No comments provided" := rfl

/-- C7: with a non-empty comment list, an `ollama.ResponseError` from the LLM
call maps to HTTP 503 and any other failure to HTTP 500; in both cases the
response is an error, not a summary. -/
theorem summarize_error_mapping (chat : String → ChatOutcome) (comments : List String)
    (m : String) (hne : comments ≠ []) :
    (chat (buildSummarizePrompt comments) = .responseError m →
      summarize_comments chat comments =
        .error 503 ("Ollama service error: " ++ m ++
          ". Make sure Ollama is running and gemma3 model is available.")) ∧
    (chat (buildSummarizePrompt comments) = .otherError m →
      summarize_comments chat comments =
        .error 500 ("Error generating summary: " ++ m)) := by
  constructor <;> intro h <;> simp [summarize_comments, hne, h]

theorem summarize_error_mapping_witness :
    summarize_comments (fun _ => .responseError "down") ["a"] =
      .error 503 ("Ollama service error: " ++ "down" ++
        ". Make sure Ollama is running and gemma3 model is available.") :=
  (summarize_error_mapping (fun _ => .responseError "down") ["a"] "down" (by decide)).1 rfl

/-- C8: the decorator strings configure fixed per-minute limits 60, 30, 10
and 5 for root, comment analysis, CSV upload and summarize, and in the
fixed-window limiter model a request is rejected exactly when the caller has
already reached the route limit within the current minute window. -/
theorem rate_limit_constants :
    (routeLimit .root = 60 ∧ routeLimit .comments = 30 ∧
      routeLimit .upload = 10 ∧ routeLimit .summarize = 5) ∧
    (∀ (r : ApiRoute) (times : List Nat) (t : Nat),
      routeLimit r ≤ windowCount times t → allowRequest (routeLimit r) times t = false) ∧
    (∀ (r : ApiRoute) (times : List Nat) (t : Nat),
      windowCount times t < routeLimit r → allowRequest (routeLimit r) times t = true) := by
  refine ⟨by decide, ?_, ?_⟩
  · intro r times t h
    simp only [allowRequest, decide_eq_false_iff_not, Nat.not_lt]
    exact h
  · intro r times t h
    simp only [allowRequest, decide_eq_true_eq]
    exact h

theorem rate_limit_constants_witness :
    allowRequest (routeLimit .summarize) [0, 10, 20, 30, 40] 50 = false :=
  rate_limit_constants.2.1 .summarize [0, 10, 20, 30, 40] 50 (by decide)

/-- C9: a `.csv` upload whose UTF-8 text yields no header record (or an empty
one) fails with HTTP 400, but the `HTTPException(400, "Empty CSV file")`
raised inside the `try:` block is caught by the generic `except Exception`
handler, so the delivered detail is the wrapped parsing message, not
"Empty CSV file". -/
theorem upload_empty_header_detail {S H D : Type} (sent : String → S) (hate : String → H)
    (danger : String → List D) (filename : String) (content : List Nat) (chars : List Char)
    (hf : strEndsWith filename ".csv" = true)
    (hdec : utf8Decode content = some chars)
    (hparse : parseCSV (String.mk chars) = .ok [] ∨
      ∃ rest, parseCSV (String.mk chars) = .ok ([] :: rest)) :
    analyze_csv sent hate danger filename content =
      .error 400 "Error parsing CSV: 400: Empty CSV file" ∧
    analyze_csv sent hate danger filename content ≠ .error 400 "Empty CSV file" := by
  have hmain : analyze_csv sent hate danger filename content =
      .error 400 ("Error parsing CSV: " ++ emptyCsvErr) := by
    rcases hparse with h | ⟨rest, h⟩ <;>
      simp [analyze_csv, hf, hdec, processCsv, h]
  refine ⟨hmain, ?_⟩
  rw [hmain]
  intro hco
  injection hco with h1 h2
  exact absurd h2 (by decide)

theorem upload_empty_header_detail_witness :
    analyze_csv (fun s => s) (fun s => s) (fun s => [s]) "void.csv" ([] : List Nat) =
      .error 400 "Error parsing CSV: 400: Empty CSV file" ∧
    analyze_csv (fun s => s) (fun s => s) (fun s => [s]) "void.csv" ([] : List Nat) ≠
      .error 400 "Empty CSV file" :=
  upload_empty_header_detail (fun s => s) (fun s => s) (fun s => [s]) "void.csv" [] []
    (by decide) rfl (Or.inl rfl)

/-- Helper: `List.find?` returns the element at the first index satisfying the
predicate. -/
theorem findFirstIdx (p : String → Bool) (l : List String) :
    ∀ a, l.find? p = some a →
      ∃ (j : Nat) (hj : j < l.length), a = l.get ⟨j, hj⟩ ∧ p a = true ∧
        ∀ (k : Nat) (hk : k < l.length), k < j → p (l.get ⟨k, hk⟩) = false := by
  induction l with
  | nil => intro a h; simp at h
  | cons x xs ih =>
    intro a h
    cases hpx : p x with
    | true =>
      rw [List.find?_cons_of_pos _ hpx] at h
      have hax : a = x := by injection h with h2; exact h2.symm
      refine ⟨0, by simp, by simp [hax], by rw [hax]; exact hpx, ?_⟩
      intro k hk hk0
      exact absurd hk0 (Nat.not_lt_zero k)
    | false =>
      rw [List.find?_cons_of_neg _ (by simp [hpx])] at h
      obtain ⟨j, hj, ha, hpa, hmin⟩ := ih a h
      refine ⟨j + 1, by simpa using Nat.succ_lt_succ hj, by simpa using ha, hpa, ?_⟩
      intro k hk hklt
      cases k with
      | zero => simpa using hpx
      | succ k2 =>
        have hk2 : k2 < xs.length := by simp at hk; omega
        have := hmin k2 hk2 (by omega)
        simpa using this

/-- Helper: a last-occurrence index is in range. -/
theorem lastIdx_lt_length (l : List String) (k : String) :
    ∀ i, lastIdx? l k = some i → i < l.length := by
  induction l with
  | nil => intro i h; simp [lastIdx?] at h
  | cons a as ih =>
    intro i h
    simp only [lastIdx?] at h
    cases hr : lastIdx? as k with
    | some j =>
      rw [hr] at h
      have hji := ih j hr
      injection h with h2
      simp [← h2, List.length_cons]
      omega
    | none =>
      rw [hr] at h
      by_cases ha : a = k
      · rw [if_pos ha] at h
        injection h with h2
        simp [← h2]
      · rw [if_neg ha] at h
        exact absurd h (by simp)

/-- Helper: a key that occurs in the list has a last occurrence. -/
theorem mem_lastIdx (l : List String) (k : String) (hm : k ∈ l) :
    ∃ i, lastIdx? l k = some i := by
  induction l with
  | nil => cases hm
  | cons a as ih =>
    by_cases hin : k ∈ as
    · obtain ⟨i, hi⟩ := ih hin
      exact ⟨i + 1, by simp [lastIdx?, hi]⟩
    · have ha : a = k := by
        rcases List.mem_cons.mp hm with h | h
        · exact h.symm
        · exact absurd h hin
      cases hr : lastIdx? as k with
      | some j => exact ⟨j + 1, by simp [lastIdx?, hr]⟩
      | none => exact ⟨0, by simp [lastIdx?, hr, ha]⟩

/-- Helper: the selected comment column is one of the headers. -/
theorem commentFieldOf_mem (fieldnames : List String) (hne : fieldnames ≠ []) :
    commentFieldOf fieldnames ∈ fieldnames := by
  unfold commentFieldOf
  cases hfind : fieldnames.find? isCandidate with
  | some a => exact List.mem_of_find?_eq_some hfind
  | none =>
    cases fieldnames with
    | nil => exact absurd rfl hne
    | cons a as => simp

/-- C2: with a non-empty header row, the comment column chosen is the first
header, in the CSV header order, whose lowercase form is in
`{comment, content, text, body}` (`isCandidate`), and when no header matches
it is the first column. -/
theorem upload_comment_column_choice (fieldnames : List String) (hne : fieldnames ≠ []) :
    ((∃ n ∈ fieldnames, isCandidate n = true) →
      ∃ (j : Nat) (hj : j < fieldnames.length),
        commentFieldOf fieldnames = fieldnames.get ⟨j, hj⟩ ∧
        isCandidate (fieldnames.get ⟨j, hj⟩) = true ∧
        ∀ (k : Nat) (hk : k < fieldnames.length), k < j →
          isCandidate (fieldnames.get ⟨k, hk⟩) = false) ∧
    ((∀ n ∈ fieldnames, isCandidate n = false) →
      commentFieldOf fieldnames = fieldnames.head hne) := by
  constructor
  · rintro ⟨n, hn, hcand⟩
    cases hfind : fieldnames.find? isCandidate with
    | none =>
      rw [List.find?_eq_none] at hfind
      exact absurd hcand (by simpa using hfind n hn)
    | some a =>
      obtain ⟨j, hj, ha, hpa, hmin⟩ := findFirstIdx isCandidate fieldnames a hfind
      refine ⟨j, hj, ?_, ?_, hmin⟩
      · rw [← ha]
        simp [commentFieldOf, hfind]
      · rw [← ha]
        exact hpa
  · intro hall
    have hfind : fieldnames.find? isCandidate = none :=
      List.find?_eq_none.mpr (fun x hx => by simp [hall x hx])
    cases fieldnames with
    | nil => exact absurd rfl hne
    | cons a as => simp [commentFieldOf, hfind]

theorem upload_comment_column_choice_witness :
    (∃ (j : Nat) (hj : j < (["id", "TEXT", "comment"] : List String).length),
      commentFieldOf ["id", "TEXT", "comment"] = ["id", "TEXT", "comment"].get ⟨j, hj⟩ ∧
      isCandidate ((["id", "TEXT", "comment"] : List String).get ⟨j, hj⟩) = true ∧
      ∀ (k : Nat) (hk : k < (["id", "TEXT", "comment"] : List String).length), k < j →
        isCandidate ((["id", "TEXT", "comment"] : List String).get ⟨k, hk⟩) = false) ∧
    commentFieldOf ["id", "name"] = (["id", "name"] : List String).head (by decide) :=
  ⟨(upload_comment_column_choice ["id", "TEXT", "comment"] (by decide)).1
      ⟨"TEXT", by decide, by decide⟩,
    (upload_comment_column_choice ["id", "name"] (by decide)).2 (by decide)⟩

/-- Helper: the row loop returns exactly one entry per non-blank row when the
selected column is present in every non-empty row and the danger analyzer
output is never empty. -/
theorem processRows_ok {S H D : Type} (sent : String → S) (hate : String → H)
    (danger : String → List D) (dhead : String → D)
    (hdanger : ∀ s, (danger s).head? = some (dhead s))
    (fieldnames : List String) (field : String) (i : Nat)
    (hidx : lastIdx? fieldnames field = some i) :
    ∀ rows : List (List String),
      (∀ r ∈ rows, r ≠ [] → i < r.length) →
      processRows sent hate danger fieldnames field rows =
        .ok (expectedEntries sent hate dhead fieldnames field rows) := by
  intro rows
  induction rows with
  | nil => intro _; rfl
  | cons row rest ih =>
    intro hlen
    have hrest : ∀ r ∈ rest, r ≠ [] → i < r.length :=
      fun r hr => hlen r (List.mem_cons_of_mem _ hr)
    by_cases hrow : row = []
    · subst hrow
      have hL : processRows sent hate danger fieldnames field ([] :: rest) =
          processRows sent hate danger fieldnames field rest := by
        simp [processRows]
      have hR : expectedEntries sent hate dhead fieldnames field ([] :: rest) =
          expectedEntries sent hate dhead fieldnames field rest := by
        simp [expectedEntries, csvRowBlank]
      rw [hL, hR]
      exact ih hrest
    · have hi2 : i < row.length := hlen row (List.mem_cons_self _ _) hrow
      have hcell : dictGet fieldnames row field = some row[i] := by
        simp [dictGet, hidx, List.get?_eq_get hi2]
      have hval : csvRowValue fieldnames field row = row[i] := by
        simp [csvRowValue, hcell]
      by_cases hts : pyStrip row[i] = ""
      · have hL : processRows sent hate danger fieldnames field (row :: rest) =
            processRows sent hate danger fieldnames field rest := by
          rw [processRows]
          simp [hrow, hcell, hts]
        have hblank : csvRowBlank fieldnames field row = true := by
          simp [csvRowBlank, hval]
          exact Or.inr hts
        have hR : expectedEntries sent hate dhead fieldnames field (row :: rest) =
            expectedEntries sent hate dhead fieldnames field rest := by
          simp [expectedEntries, hblank]
        rw [hL, hR]
        exact ih hrest
      · have hd := hdanger (pyStrip row[i])
        cases hdt : danger (pyStrip row[i]) with
        | nil =>
          rw [hdt] at hd
          simp at hd
        | cons d dl =>
          rw [hdt] at hd
          have hdeq : d = dhead (pyStrip row[i]) := by simpa using hd
          subst hdeq
          have hL : processRows sent hate danger fieldnames field (row :: rest) =
              (processRows sent hate danger fieldnames field rest).map
                (fun l =>
                  ⟨pyStrip row[i], sent (pyStrip row[i]), hate (pyStrip row[i]),
                    dhead (pyStrip row[i])⟩ :: l) := by
            rw [processRows]
            simp [hrow, hcell, hts, hdt]
          have hblank : csvRowBlank fieldnames field row = false := by
            simp [csvRowBlank, hval]
            exact ⟨hrow, hts⟩
          have hR : expectedEntries sent hate dhead fieldnames field (row :: rest) =
              ⟨pyStrip row[i], sent (pyStrip row[i]), hate (pyStrip row[i]),
                dhead (pyStrip row[i])⟩ ::
                expectedEntries sent hate dhead fieldnames field rest := by
            simp [expectedEntries, hblank, hval]
          rw [hL, hR, ih hrest]
          rfl

/-- C3: for a well-formed `.csv` upload (valid UTF-8, non-empty header,
rectangular non-empty rows, danger analyzer never returning an empty list),
the response holds exactly one classification entry per non-blank data row,
in file order, blank rows being skipped. -/
theorem upload_results_per_row {S H D : Type} (sent : String → S) (hate : String → H)
    (danger : String → List D) (dhead : String → D) (filename : String)
    (content : List Nat) (chars : List Char) (fieldnames : List String)
    (rows : List (List String))
    (hf : strEndsWith filename ".csv" = true)
    (hdec : utf8Decode content = some chars)
    (hparse : parseCSV (String.mk chars) = .ok (fieldnames :: rows))
    (hne : fieldnames ≠ [])
    (hrect : ∀ r ∈ rows, r ≠ [] → r.length = fieldnames.length)
    (hdanger : ∀ s, (danger s).head? = some (dhead s)) :
    analyze_csv sent hate danger filename content =
      .ok filename
        (expectedEntries sent hate dhead fieldnames (commentFieldOf fieldnames) rows)
        "CSV analyzed successfully" := by
  obtain ⟨i, hidx⟩ :=
    mem_lastIdx fieldnames (commentFieldOf fieldnames) (commentFieldOf_mem fieldnames hne)
  have hi : i < fieldnames.length := lastIdx_lt_length fieldnames _ i hidx
  have hrows : ∀ r ∈ rows, r ≠ [] → i < r.length :=
    fun r hr hrne => (hrect r hr hrne) ▸ hi
  have hproc := processRows_ok sent hate danger dhead hdanger fieldnames
    (commentFieldOf fieldnames) i hidx rows hrows
  simp [analyze_csv, hf, hdec, processCsv, hparse, hne, hproc]

theorem upload_results_per_row_witness :
    analyze_csv (fun s => s) (fun s => s) (fun s => [s]) "c.csv"
        (asciiBytes "text,other\nhi,x\n ,y\n\nbye,z") =
      .ok "c.csv"
        (expectedEntries (fun s => s) (fun s => s) (fun s => s) ["text", "other"]
          (commentFieldOf ["text", "other"]) [["hi", "x"], [" ", "y"], [], ["bye", "z"]])
        "CSV analyzed successfully" :=
  upload_results_per_row (fun s => s) (fun s => s) (fun s => [s]) (fun s => s) "c.csv"
    (asciiBytes "text,other\nhi,x\n ,y\n\nbye,z")
    "text,other\nhi,x\n ,y\n\nbye,z".toList
    ["text", "other"] [["hi", "x"], [" ", "y"], [], ["bye", "z"]]
    (by decide) (by decide) (by decide) (by decide) (by decide) (fun s => rfl)

/-- C10 counterexample: in the upload `"id,comment"` header with data rows
`"x,1"` and `"y"`, the second row lacks the comment cell, so its dict value is
the `restval` `None` and `None.strip()` raises; the whole request fails with a
400 instead of the row being skipped (and the first row's entry is discarded). -/
theorem upload_missing_field_counterexample :
    analyze_csv (fun s => s) (fun s => s) (fun s => [s]) "c.csv"
        (asciiBytes "id,comment\nx,1\ny") =
      (.error 400 ("Error parsing CSV: " ++ noneStripErr) :
        CsvResponse String String String) := by
  decide

/-- C10 amended: row skipping is decided solely by the selected comment cell
after stripping when that cell is present as a string: such a row is skipped
exactly when the stripped text is empty (whatever its other columns hold), and
a processed row contributes the stripped text, not the raw cell; but a
non-empty row whose comment cell is missing (short row, `restval None`) aborts
the whole loop with the `AttributeError` that the endpoint maps to HTTP 400. -/
theorem upload_row_skipping_amended {S H D : Type} (sent : String → S) (hate : String → H)
    (danger : String → List D) (fieldnames : List String) (field : String)
    (row : List String) (rest : List (List String)) :
    (∀ s, dictGet fieldnames row field = some s → pyStrip s = "" →
      processRows sent hate danger fieldnames field (row :: rest) =
        processRows sent hate danger fieldnames field rest) ∧
    (∀ s (d : D) (ds : List D), dictGet fieldnames row field = some s →
      pyStrip s ≠ "" → danger (pyStrip s) = d :: ds →
      processRows sent hate danger fieldnames field (row :: rest) =
        (processRows sent hate danger fieldnames field rest).map
          (fun l => ⟨pyStrip s, sent (pyStrip s), hate (pyStrip s), d⟩ :: l)) ∧
    (row ≠ [] → dictGet fieldnames row field = none →
      processRows sent hate danger fieldnames field (row :: rest) =
        .error noneStripErr) := by
  refine ⟨?_, ?_, ?_⟩
  · intro s hcell hstrip
    by_cases hrow : row = []
    · subst hrow
      simp [processRows]
    · rw [processRows]
      simp [hrow, hcell, hstrip]
  · intro s d ds hcell hstrip hd
    by_cases hrow : row = []
    · exfalso
      subst hrow
      have hs : s = "" := by
        simp only [dictGet] at hcell
        cases hr : lastIdx? fieldnames field with
        | none => rw [hr] at hcell; injection hcell with h2; exact h2.symm
        | some j => rw [hr] at hcell; simp at hcell
      rw [hs] at hstrip
      exact hstrip rfl
    · rw [processRows]
      simp [hrow, hcell, hstrip, hd]
  · intro hrow hcell
    rw [processRows]
    simp [hrow, hcell]

theorem upload_row_skipping_amended_witness :
    processRows (fun s => s) (fun s => s) (fun s => [s]) ["comment", "other"] "comment"
        [["", "data"]] = .ok [] := by
  have h := (upload_row_skipping_amended (fun s : String => s) (fun s : String => s)
    (fun s => [s]) ["comment", "other"] "comment" ["", "data"] []).1 "" (by decide) (by decide)
  rw [h]
  decide

end FacultyApi
